import Mathlib

/-!
Verification of the unified exchange trading adapter (api_tester).

This file shallowly embeds the permission-harness verdict logic
(`tests/okx_test.py`), the precision resolver and rounding used by the
order paths (`rest/binance_api.py`, `rest/okx.py`), the order-parameter
translation of the OKX, XT and Binance Portfolio-Margin adapters
(`rest/okx.py`, `rest/xt.py`, `rest/binance_PM_addon.py`), and the HMAC
query-string signer (`rest/binance_PM_addon.py`).  Network collaborators
(venue clients, price tickers, clocks) are modelled as explicit inputs.
-/

/-! ## String helpers

Python's `in`, `.lower()`, `.endswith()` and `.replace()` on the ASCII
strings used by the harness, modelled directly on character lists. -/

/-- leadMatch n h: the list h starts with the list n. -/
def leadMatch : List Char → List Char → Bool
  | [], _ => true
  | _ :: _, [] => false
  | a :: n, b :: h => a == b && leadMatch n h

/-- strHas hay needle: Python `needle in hay` (contiguous substring). -/
def strHas (hay needle : String) : Bool :=
  go needle.data hay.data
where
  go (n : List Char) : List Char → Bool
    | [] => leadMatch n []
    | c :: t => leadMatch n (c :: t) || go n t

/-- strEndsWith s suf: Python `s.endswith(suf)`. -/
def strEndsWith (s suf : String) : Bool :=
  leadMatch suf.data.reverse s.data.reverse

/-- lowerChar c: ASCII lower-casing of one character, as Python `.lower()`
acts on the ASCII error messages compared by the harness. -/
def lowerChar (c : Char) : Char :=
  if 65 ≤ c.toNat ∧ c.toNat ≤ 90 then Char.ofNat (c.toNat + 32) else c

/-- lowerStr s: ASCII `s.lower()`. -/
def lowerStr (s : String) : String :=
  ⟨s.data.map lowerChar⟩

/-! ## Permission harness (tests/okx_test.py, test_api_key)

An OKX venue response is a dict; the harness looks at `code` (success
is `code == "0"`) and at `msg` (defaulting to "Unknown error").  Each
write probe classifies the response into a passed/failed verdict
depending on the declared key type. -/

/-- Venue response shape as consumed by the harness: the optional `code`
field and the optional `msg` field of the response dict. -/
structure OkxResp where
  code : Option String
  msg : Option String
deriving DecidableEq

/-- respMsg r: `response.get('msg', 'Unknown error')`. -/
def respMsg (r : OkxResp) : String :=
  r.msg.getD "Unknown error"

/-- Declared credential type of the key under test. -/
inductive KeyType where
  | read_only
  | read_write
deriving DecidableEq

/-- permDenied m: the read-only permission-denied test of okx_test.py:
`"permission" in error_msg.lower() or "not authorized" in error_msg.lower()`. -/
def permDenied (m : String) : Bool :=
  strHas (lowerStr m) "permission" || strHas (lowerStr m) "not authorized"

/-- okxSuccess r: `"code" in response and response["code"] == "0"`. -/
def okxSuccess (r : OkxResp) : Bool :=
  r.code == some "0"

/-- verdictBuySpot: verdict of the "Buy Spot" write probe
(okx_test.py lines 203-242). -/
def verdictBuySpot (kt : KeyType) (r : OkxResp) : Bool :=
  if okxSuccess r then
    match kt with
    | .read_only => false
    | .read_write => true
  else
    match kt with
    | .read_only => permDenied (respMsg r)
    | .read_write => false

/-- verdictSellSpot: verdict of the "Sell Spot" write probe
(okx_test.py lines 244-284), same classification as the buy probe. -/
def verdictSellSpot (kt : KeyType) (r : OkxResp) : Bool :=
  if okxSuccess r then
    match kt with
    | .read_only => false
    | .read_write => true
  else
    match kt with
    | .read_only => permDenied (respMsg r)
    | .read_write => false

/-- verdictCancelSpot: verdict of the "Cancel Spot Orders" write probe
(okx_test.py lines 305-353); for a read-write key an error mentioning
"no open orders" or "no orders" is an acceptable business condition. -/
def verdictCancelSpot (kt : KeyType) (r : OkxResp) : Bool :=
  if okxSuccess r then
    match kt with
    | .read_only => false
    | .read_write => true
  else
    match kt with
    | .read_only => permDenied (respMsg r)
    | .read_write =>
        strHas (lowerStr (respMsg r)) "no open orders" ||
        strHas (lowerStr (respMsg r)) "no orders"

/-- verdictOpenLongFut: verdict of the "Open Long Futures" write probe
(okx_test.py lines 387-427). -/
def verdictOpenLongFut (kt : KeyType) (r : OkxResp) : Bool :=
  if okxSuccess r then
    match kt with
    | .read_only => false
    | .read_write => true
  else
    match kt with
    | .read_only => permDenied (respMsg r)
    | .read_write => false

/-- verdictCloseLongFut: verdict of the "Close Long Futures" write probe
(okx_test.py lines 429-477); for a read-write key an error mentioning
"no position" or "no long position" is an acceptable business condition. -/
def verdictCloseLongFut (kt : KeyType) (r : OkxResp) : Bool :=
  if okxSuccess r then
    match kt with
    | .read_only => false
    | .read_write => true
  else
    match kt with
    | .read_only => permDenied (respMsg r)
    | .read_write =>
        strHas (lowerStr (respMsg r)) "no position" ||
        strHas (lowerStr (respMsg r)) "no long position"

/-- verdictCancelFut: verdict of the "Cancel Futures Orders" write probe
(okx_test.py lines 498-546); for a read-write key an error mentioning
"no open orders" or "no orders" is an acceptable business condition. -/
def verdictCancelFut (kt : KeyType) (r : OkxResp) : Bool :=
  if okxSuccess r then
    match kt with
    | .read_only => false
    | .read_write => true
  else
    match kt with
    | .read_only => permDenied (respMsg r)
    | .read_write =>
        strHas (lowerStr (respMsg r)) "no open orders" ||
        strHas (lowerStr (respMsg r)) "no orders"

/-- Fields of an XT venue response dict that
xt_test.validate_write_operation inspects: a `returnCode` key (absent
or an integer) and an `error` key (absent, present-null, or a
string). -/
structure XtDict where
  returnCode : Option Int
  error : Option (Option String)
deriving DecidableEq

/-- XT harness response: Python None or a response dict. -/
inductive XtResp where
  | null
  | dict (d : XtDict)
deriving DecidableEq

/-- xtRespTruthy r: Python truthiness of the response — None and the
empty dict are falsy. -/
def xtRespTruthy : XtResp → Bool
  | .null => false
  | .dict d => !(d.returnCode == none && d.error == none)

/-- xtWriteErrMsg ev: the error message string extracted at xt_test.py
lines 240-244 — `str(error_msg)` turns a present-null error value into
"None". -/
def xtWriteErrMsg : Option String → String
  | none => "None"
  | some s => s

/-- xtPermPattern m: the read-only pattern of validate_write_operation
line 248: `"permission" in error_msg.lower() or "IP address" in
error_msg or "AUTH_106" in error_msg`. -/
def xtPermPattern (m : String) : Bool :=
  strHas (lowerStr m) "permission" || strHas m "IP address" ||
    strHas m "AUTH_106"

/-- xtExpectedHit exp m: the `for err in expected_errors: if err and
err in error_msg` loop of validate_write_operation — an entry matches
when truthy (non-None, nonempty) and contained in the message. -/
def xtExpectedHit (exp : List (Option String)) (m : String) : Bool :=
  exp.any fun e =>
    match e with
    | none => false
    | some s => !(s == "") && strHas m s

/-- xtValidateWrite op kt resp exp: the passed verdict of
xt_test.validate_write_operation (xt_test.py lines 179-306), with the
caller's expected_error already in list form (the probe drivers at
lines 350-403 always pass lists; a None or string expected_error
together with a None response raises a TypeError at line 213 and is
outside the modelled inputs).  A None response fails through either the
line-213 or the line-221 check. -/
def xtValidateWrite (operation_name : String) (kt : KeyType) (resp : XtResp)
    (exp : List (Option String)) : Bool :=
  if operation_name == "Cancel Spot Orders" && kt == KeyType.read_write &&
      !xtRespTruthy resp then
    true
  else if xtRespTruthy resp &&
      (match resp with
       | .dict d => d.returnCode == some 0
       | .null => false) then
    true
  else
    match resp with
    | .null => false
    | .dict d =>
      match d.error with
      | none =>
          match kt with
          | .read_only => false
          | .read_write => true
      | some ev =>
          let m := xtWriteErrMsg ev
          match kt with
          | .read_only =>
              if xtPermPattern m then true
              else if xtExpectedHit exp m then true
              else false
          | .read_write =>
              if xtExpectedHit exp m then true
              else false

/-- Counterexample to claim C1 as stated: the XT harness
(validate_write_operation, cited by the claim) classifies a successful
returnCode-0 write response as PASSED on a read-only credential, and
classifies the non-permission error "ORDER_002 ..." as PASSED because
it matches the caller's expected-error list (the Buy Spot driver at
xt_test.py lines 356-359 passes ["ORDER_002", ...] for read-only keys
too) — both contradict the claim's success ⇒ fail / other error ⇒
fail rules. -/
theorem write_probe_read_only_xt_counterexample :
    xtValidateWrite "Open Long Futures" KeyType.read_only
      (XtResp.dict ⟨some 0, none⟩) [some "ORDER_002", none] = true ∧
    permDenied "ORDER_002 order does not exist" = false ∧
    xtPermPattern "ORDER_002 order does not exist" = false ∧
    xtValidateWrite "Buy Spot" KeyType.read_only
      (XtResp.dict ⟨none, some (some "ORDER_002 order does not exist")⟩)
      [some "ORDER_002"] = true := by
  decide

/-- Claim C1 (amended): on a read-only credential the OKX harness
classifies every write probe as the claim states — a successful venue
response (code "0") as a failed verdict, a permission-pattern error as
a passed verdict, any other error as a failed verdict.  The XT harness
(validate_write_operation) deviates: a returnCode-0 success is
classified passed even on a read-only key; an error passes exactly when
it matches the permission pattern or a caller-supplied expected-error
entry; a dict response without an error key fails, as does a None
response. -/
theorem write_probe_read_only_amended :
    (∀ r : OkxResp,
      (okxSuccess r = true →
        verdictBuySpot .read_only r = false ∧
        verdictSellSpot .read_only r = false ∧
        verdictCancelSpot .read_only r = false ∧
        verdictOpenLongFut .read_only r = false ∧
        verdictCloseLongFut .read_only r = false ∧
        verdictCancelFut .read_only r = false) ∧
      (okxSuccess r = false → permDenied (respMsg r) = true →
        verdictBuySpot .read_only r = true ∧
        verdictSellSpot .read_only r = true ∧
        verdictCancelSpot .read_only r = true ∧
        verdictOpenLongFut .read_only r = true ∧
        verdictCloseLongFut .read_only r = true ∧
        verdictCancelFut .read_only r = true) ∧
      (okxSuccess r = false → permDenied (respMsg r) = false →
        verdictBuySpot .read_only r = false ∧
        verdictSellSpot .read_only r = false ∧
        verdictCancelSpot .read_only r = false ∧
        verdictOpenLongFut .read_only r = false ∧
        verdictCloseLongFut .read_only r = false ∧
        verdictCancelFut .read_only r = false)) ∧
    (∀ (op : String) (exp : List (Option String)),
      xtValidateWrite op KeyType.read_only XtResp.null exp = false ∧
      ∀ d : XtDict,
        (d.returnCode = some 0 →
          xtValidateWrite op KeyType.read_only (XtResp.dict d) exp = true) ∧
        (∀ ev, d.returnCode ≠ some 0 → d.error = some ev →
          xtValidateWrite op KeyType.read_only (XtResp.dict d) exp =
            (xtPermPattern (xtWriteErrMsg ev) ||
             xtExpectedHit exp (xtWriteErrMsg ev))) ∧
        (d.returnCode ≠ some 0 → d.error = none →
          xtValidateWrite op KeyType.read_only (XtResp.dict d) exp = false)) := by
  have hk : (KeyType.read_only == KeyType.read_write) = false := rfl
  constructor
  · intro r
    refine ⟨fun hs => ?_, fun hs hp => ?_, fun hs hp => ?_⟩
    · simp [verdictBuySpot, verdictSellSpot, verdictCancelSpot,
        verdictOpenLongFut, verdictCloseLongFut, verdictCancelFut, hs]
    · simp [verdictBuySpot, verdictSellSpot, verdictCancelSpot,
        verdictOpenLongFut, verdictCloseLongFut, verdictCancelFut, hs, hp]
    · simp [verdictBuySpot, verdictSellSpot, verdictCancelSpot,
        verdictOpenLongFut, verdictCloseLongFut, verdictCancelFut, hs, hp]
  · intro op exp
    refine ⟨by simp [xtValidateWrite, xtRespTruthy, hk], fun d => ⟨?_, ?_, ?_⟩⟩
    · intro hrc
      simp [xtValidateWrite, xtRespTruthy, hrc, hk]
    · intro ev hrc herr
      have hrc2 : (d.returnCode == some 0) = false := beq_eq_false_iff_ne.mpr hrc
      simp only [xtValidateWrite, hk, Bool.and_false, Bool.false_and,
        Bool.and_eq_true, hrc2, herr, if_neg, Bool.false_eq_true,
        if_false, and_false]
      cases hP : xtPermPattern (xtWriteErrMsg ev) <;>
        cases hE : xtExpectedHit exp (xtWriteErrMsg ev) <;>
          simp [hP, hE]
    · intro hrc herr
      have hrc2 : (d.returnCode == some 0) = false := beq_eq_false_iff_ne.mpr hrc
      simp [xtValidateWrite, hk, hrc2, herr]

/-- Concrete instances of the amended read-only classification: an OKX
permission-denied error passes, an XT None response fails, an XT
returnCode-0 success passes, an unrecognized XT error fails. -/
theorem write_probe_read_only_amended_witness :
    verdictBuySpot KeyType.read_only ⟨some "1", some "permission denied"⟩ = true ∧
    xtValidateWrite "Buy Spot" KeyType.read_only XtResp.null [] = false ∧
    xtValidateWrite "Buy Spot" KeyType.read_only
      (XtResp.dict ⟨some 0, none⟩) [] = true ∧
    xtValidateWrite "Buy Spot" KeyType.read_only
      (XtResp.dict ⟨none, some (some "network glitch")⟩) [] = false :=
  ⟨((write_probe_read_only_amended.1 ⟨some "1", some "permission denied"⟩).2.1
      (by decide) (by decide)).1,
   (write_probe_read_only_amended.2 "Buy Spot" []).1,
   ((write_probe_read_only_amended.2 "Buy Spot" []).2 ⟨some 0, none⟩).1 rfl,
   by
    have h := ((write_probe_read_only_amended.2 "Buy Spot" []).2
      ⟨none, some (some "network glitch")⟩).2.1 (some "network glitch")
      (by decide) rfl
    rw [h]
    decide⟩

/-- Claim C2: on a read-write credential every write probe classifies a
successful venue response as a passed verdict; an error matching the
probe's acceptable-business-condition patterns ("no open orders" /
"no orders" for the cancel probes, "no position" / "no long position"
for the close probe) as a passed verdict; and any other error as a
failed verdict (probes with no acceptable pattern fail on any error). -/
theorem write_probe_read_write_classification (r : OkxResp) :
    (okxSuccess r = true →
      verdictBuySpot .read_write r = true ∧
      verdictSellSpot .read_write r = true ∧
      verdictCancelSpot .read_write r = true ∧
      verdictOpenLongFut .read_write r = true ∧
      verdictCloseLongFut .read_write r = true ∧
      verdictCancelFut .read_write r = true) ∧
    (okxSuccess r = false →
      verdictCancelSpot .read_write r =
        (strHas (lowerStr (respMsg r)) "no open orders" ||
         strHas (lowerStr (respMsg r)) "no orders") ∧
      verdictCloseLongFut .read_write r =
        (strHas (lowerStr (respMsg r)) "no position" ||
         strHas (lowerStr (respMsg r)) "no long position") ∧
      verdictCancelFut .read_write r =
        (strHas (lowerStr (respMsg r)) "no open orders" ||
         strHas (lowerStr (respMsg r)) "no orders") ∧
      verdictBuySpot .read_write r = false ∧
      verdictSellSpot .read_write r = false ∧
      verdictOpenLongFut .read_write r = false) := by
  refine ⟨fun hs => ?_, fun hs => ?_⟩ <;>
    simp [verdictBuySpot, verdictSellSpot, verdictCancelSpot,
      verdictOpenLongFut, verdictCloseLongFut, verdictCancelFut, hs]

/-- Concrete instances of the read-write write-probe classification:
success passes, a "no open orders to cancel" business error passes the
cancel probe, an unrelated error fails the buy probe. -/
theorem write_probe_read_write_classification_witness :
    verdictCancelSpot .read_write ⟨some "0", none⟩ = true ∧
    verdictCancelSpot .read_write ⟨some "1", some "No open orders to cancel"⟩ = true ∧
    verdictBuySpot .read_write ⟨some "1", some "insufficient balance"⟩ = false :=
  ⟨((write_probe_read_write_classification ⟨some "0", none⟩).1 (by decide)).2.2.1,
   by
    have h := ((write_probe_read_write_classification
      ⟨some "1", some "No open orders to cancel"⟩).2 (by decide)).1
    rw [h]; decide,
   by
    have h := ((write_probe_read_write_classification
      ⟨some "1", some "insufficient balance"⟩).2 (by decide)).2.2.2.1
    exact h⟩

/-! ## Precision resolver

`binance_api.test_buy_spot` / `test_sell_spot` (lines 222-229, 265-272)
and `okx_test.test_api_key` (lines 377-385) convert a venue tick size to
a decimal-place count with `abs(int(math.log10(tick)))`.  Over exact
rationals, `int(math.log10 t)` is the truncation of log10 toward zero:
the floor of log10 for t ≥ 1 and its ceiling for 0 < t < 1. -/

/-- log10_int_trunc q: Python `int(math.log10(q))` for q > 0 — truncation
toward zero of the base-10 logarithm. -/
def log10_int_trunc (q : ℚ) : ℤ :=
  if 1 ≤ q then Int.log 10 q else Int.clog 10 q

/-- resolve_decimal_places t: the resolver `abs(int(math.log10(t)))`;
`math.log10` raises ValueError "math domain error" on t ≤ 0, and no
caller converts that into a ConfigError. -/
def resolve_decimal_places (t : ℚ) : Except String ℕ :=
  if t ≤ 0 then .error "math domain error"
  else .ok (log10_int_trunc t).natAbs

theorem log10_int_trunc_zpow (z : ℤ) : log10_int_trunc ((10 : ℚ) ^ z) = z := by
  unfold log10_int_trunc
  split
  · exact Int.log_zpow (by norm_num) z
  · exact Int.clog_zpow (by norm_num) z

/-- Claim C3: for n = 0..8 a tick size of the exact form 10^-n resolves
to exactly n decimal places. -/
theorem tick_size_power_resolution (n : ℕ) (h : n ≤ 8) :
    resolve_decimal_places ((10 : ℚ) ^ (-(n : ℤ))) = .ok n := by
  have hpos : (0 : ℚ) < 10 ^ (-(n : ℤ)) := by positivity
  unfold resolve_decimal_places
  rw [if_neg (not_le.mpr hpos), log10_int_trunc_zpow]
  simp

/-- Concrete instance: tick size 10^-5 (i.e. 1e-05) resolves to 5
decimal places. -/
theorem tick_size_power_resolution_witness :
    5 ≤ 8 ∧ resolve_decimal_places ((10 : ℚ) ^ (-(5 : ℤ))) = .ok 5 :=
  ⟨by norm_num, tick_size_power_resolution 5 (by norm_num)⟩

/-- Counterexample to claim C4 as stated: for tick size 0.05 the code
resolves to abs(int(log10 0.05)) = abs(-1) = 1, while
abs(floor(log10 0.05)) = abs(-2) = 2. -/
theorem resolver_not_floor_counterexample :
    ¬ resolve_decimal_places ((1 : ℚ) / 20) =
        .ok (Int.log 10 ((1 : ℚ) / 20)).natAbs := by
  have hlt : ((1 : ℚ) / 20) ≤ 1 := by norm_num
  have hinv : ((1 : ℚ) / 20)⁻¹ = (20 : ℚ) := by norm_num
  have hfl : ⌊((20 : ℚ))⌋₊ = 20 := by
    norm_num
  have hcl : ⌈((20 : ℚ))⌉₊ = 20 := by
    norm_num
  have hlog : Nat.log 10 20 = 1 :=
    Nat.log_eq_of_pow_le_of_lt_pow (by norm_num) (by norm_num)
  have hclog : Nat.clog 10 20 = 2 := by
    refine le_antisymm ?_ ?_
    · exact (Nat.le_pow_iff_clog_le (by norm_num)).mp (by norm_num)
    · exact (Nat.pow_lt_iff_lt_clog (by norm_num)).mp (by norm_num)
  have hL : Int.log 10 ((1 : ℚ) / 20) = -2 := by
    rw [Int.log_of_right_le_one 10 hlt, hinv, hcl, hclog]
    norm_num
  have hC : Int.clog 10 ((1 : ℚ) / 20) = -1 := by
    rw [Int.clog_of_right_le_one 10 hlt, hinv, hfl, hlog]
    norm_num
  have hres : resolve_decimal_places ((1 : ℚ) / 20) = .ok 1 := by
    unfold resolve_decimal_places log10_int_trunc
    rw [if_neg (by norm_num), if_neg (by norm_num), hC]
    rfl
  rw [hres, hL]
  simp

/-- Claim C4 (amended): for every positive tick size the resolver yields
the absolute value of the truncation of log10 toward zero — the floor of
log10 for t ≥ 1 and the ceiling of log10 for t < 1 (the ceiling is
characterized by 10^(c-1) < t ≤ 10^c) — and a zero or negative tick
size produces the uncaught math-domain ValueError of `math.log10`, not a
ConfigError (no ConfigError exists in the code). -/
theorem resolver_truncation_amended :
    (∀ t : ℚ, 1 ≤ t → resolve_decimal_places t = .ok (Int.log 10 t).natAbs) ∧
    (∀ t : ℚ, 0 < t → t < 1 →
      resolve_decimal_places t = .ok (Int.clog 10 t).natAbs ∧
      t ≤ (10 : ℚ) ^ Int.clog 10 t ∧ (10 : ℚ) ^ (Int.clog 10 t - 1) < t) ∧
    (∀ t : ℚ, t ≤ 0 → resolve_decimal_places t = .error "math domain error") := by
  refine ⟨fun t ht => ?_, fun t ht0 ht1 => ?_, fun t ht => ?_⟩
  · unfold resolve_decimal_places log10_int_trunc
    rw [if_neg (by linarith), if_pos ht]
  · refine ⟨?_, Int.self_le_zpow_clog (by norm_num) t,
      Int.zpow_pred_clog_lt_self (by norm_num) ht0⟩
    unfold resolve_decimal_places log10_int_trunc
    rw [if_neg (by linarith), if_neg (by linarith)]
  · unfold resolve_decimal_places
    rw [if_pos ht]

/-- Concrete instance of the amended resolver claim at tick size 0.05. -/
theorem resolver_truncation_amended_witness :
    resolve_decimal_places ((1 : ℚ) / 20) =
      .ok (Int.clog 10 ((1 : ℚ) / 20)).natAbs :=
  ((resolver_truncation_amended.2.1 ((1 : ℚ) / 20) (by norm_num) (by norm_num))).1

/-! ## Rounding

Prices and quantities are rounded with Python's builtin `round`, e.g.
`round(current_price * 0.9, price_precision)` in
`binance_api.test_buy_spot` (lines 236-247) and
`round(quantity * price, 2)` in `xt.buy_spot`.  Python rounds half to
even; over exact rationals this is the function below. -/

/-- roundHalfEven q: round to the nearest integer, ties to even — the
rounding mode of Python's builtin `round`. -/
def roundHalfEven (q : ℚ) : ℤ :=
  if q - ⌊q⌋ < 1 / 2 then ⌊q⌋
  else if 1 / 2 < q - ⌊q⌋ then ⌊q⌋ + 1
  else if ⌊q⌋ % 2 = 0 then ⌊q⌋ else ⌊q⌋ + 1

/-- pyRound x p: Python `round(x, p)` — round x half-to-even at p decimal
digits. -/
def pyRound (x : ℚ) (p : ℕ) : ℚ :=
  (roundHalfEven (x * 10 ^ p) : ℚ) / 10 ^ p

theorem roundHalfEven_intCast (n : ℤ) : roundHalfEven (n : ℚ) = n := by
  unfold roundHalfEven
  rw [Int.floor_intCast]
  norm_num

/-- Claim C9: price/quantity rounding is idempotent — rounding an
already-rounded value at the same decimal-place count leaves it
unchanged. -/
theorem round_idempotent (x : ℚ) (p : ℕ) :
    pyRound (pyRound x p) p = pyRound x p := by
  unfold pyRound
  have h10 : ((10 : ℚ) ^ p) ≠ 0 := by positivity
  rw [div_mul_cancel₀ _ h10, roundHalfEven_intCast]

/-! ## Order translation

Venue order parameters are heterogeneous string/number dicts; `PVal`
carries one value. -/

/-- Order-parameter value: a string or a number. -/
inductive PVal where
  | s : String → PVal
  | q : ℚ → PVal
deriving DecidableEq

/-- priceFalsy p: Python truthiness `not price` on an optional numeric
price — true for None and for 0. -/
def priceFalsy : Option ℚ → Bool
  | none => true
  | some x => x == 0

/-- strFalsy s: Python truthiness `not s` on a string. -/
def strFalsy (s : String) : Bool :=
  s == ""

/-- okxPriceReq: OkxApi.PRICE_REQ, the order types that require a price. -/
def okxPriceReq : List String :=
  ["limit", "post_only", "fok", "ioc", "mmp", "mmp_and_post_only"]

/-- okx_get_order_params: OkxApi._get_order_params (okx.py lines
207-221).  The just-in-time ticker price `self.get_spot_price(symbol)`
fetched for spot market orders is the explicit input `spotPrice`; the
final dict comprehension drops the None-valued `px`. -/
def okx_get_order_params (spotPrice : ℚ) (symbol : String) (price0 : Option ℚ)
    (quantity0 : ℚ) (order_type td_mode : String) (is_fut : Bool) :
    Except String (List (String × PVal)) :=
  let price : Option ℚ := if okxPriceReq.contains order_type then price0 else none
  if okxPriceReq.contains order_type && priceFalsy price0 then
    .error "Price is required for LIMIT order"
  else
    let quantity : ℚ :=
      if order_type == "market" && !is_fut then quantity0 * spotPrice else quantity0
    .ok ([("instId", PVal.s symbol)] ++
      (match price with
       | none => []
       | some p => [("px", PVal.q p)]) ++
      [("sz", PVal.q quantity), ("ordType", PVal.s order_type),
       ("tdMode", PVal.s td_mode)])

/-- okx_buy_spot: OkxApi.buy_spot — forwards the translated params to
`place_order` with side "buy". -/
def okx_buy_spot (spotPrice : ℚ) (symbol : String) (price : Option ℚ)
    (quantity : ℚ) (order_type td_mode : String) :
    Except String (List (String × PVal)) :=
  (okx_get_order_params spotPrice symbol price quantity order_type td_mode false).map
    (· ++ [("side", PVal.s "buy")])

/-- okx_open_long_fut: OkxApi.open_long_fut — `_get_order_params` with
`is_fut=True`, then side "buy", posSide "long". -/
def okx_open_long_fut (spotPrice : ℚ) (symbol : String) (price : Option ℚ)
    (quantity : ℚ) (order_type td_mode : String) :
    Except String (List (String × PVal)) :=
  (okx_get_order_params spotPrice symbol price quantity order_type td_mode true).map
    (· ++ [("side", PVal.s "buy"), ("posSide", PVal.s "long")])

/-- okx_close_long_fut: OkxApi.close_long_fut — `_get_order_params`
without the `is_fut` flag (as in the source), then side "sell", posSide
"long". -/
def okx_close_long_fut (spotPrice : ℚ) (symbol : String) (price : Option ℚ)
    (quantity : ℚ) (order_type td_mode : String) :
    Except String (List (String × PVal)) :=
  (okx_get_order_params spotPrice symbol price quantity order_type td_mode false).map
    (· ++ [("side", PVal.s "sell"), ("posSide", PVal.s "long")])

/-- okx_open_short_fut: OkxApi.open_short_fut — `is_fut=True`, side
"sell", posSide "short". -/
def okx_open_short_fut (spotPrice : ℚ) (symbol : String) (price : Option ℚ)
    (quantity : ℚ) (order_type td_mode : String) :
    Except String (List (String × PVal)) :=
  (okx_get_order_params spotPrice symbol price quantity order_type td_mode true).map
    (· ++ [("side", PVal.s "sell"), ("posSide", PVal.s "short")])

/-- okx_close_short_fut: OkxApi.close_short_fut — without the `is_fut`
flag (as in the source), side "buy", posSide "short". -/
def okx_close_short_fut (spotPrice : ℚ) (symbol : String) (price : Option ℚ)
    (quantity : ℚ) (order_type td_mode : String) :
    Except String (List (String × PVal)) :=
  (okx_get_order_params spotPrice symbol price quantity order_type td_mode false).map
    (· ++ [("side", PVal.s "buy"), ("posSide", PVal.s "short")])

/-- xt_get_fut_params: XtApi._get_fut_params (xt.py lines 380-402).  The
trailing float→int conversion only changes wire formatting of integral
values and is the identity on exact rationals.  A Python caller
unpacking the returned error dict raises before any request is sent;
the error result models that local abort. -/
def xt_get_fut_params (default_symbol : String) (symbol : Option String)
    (price : Option ℚ) (qty : Option ℚ) (order_type time_in_force : String) :
    Except String (String × Option ℚ × Option ℚ × String) :=
  let symbol := symbol.getD default_symbol
  if order_type == "MARKET" then
    .ok (symbol, none, qty, if strFalsy time_in_force then "FOK" else time_in_force)
  else if order_type == "LIMIT" then
    if priceFalsy price then .error "Price is required for LIMIT order"
    else .ok (symbol, price, qty,
      if strFalsy time_in_force then "GTC" else time_in_force)
  else .ok (symbol, price, qty, time_in_force)

/-- xtVenueOf s: the symbol-suffix routing shared by the XT futures
order methods — `endswith("usdt")` selects the USDT-margined client,
`endswith("usd")` the coin-margined one, anything else falls back to the
USDT-margined client. -/
def xtVenueOf (s : String) : String :=
  if strEndsWith s "usdt" then "um" else if strEndsWith s "usd" then "cm" else "um"

/-- Arguments passed to `Perp.send_order` by the XT futures order
methods. -/
structure XtOrderReq where
  venue : String
  symbol : String
  amount : Option ℚ
  order_side : String
  order_type : String
  position_side : String
  price : Option ℚ
  time_in_force : String
deriving DecidableEq

/-- xt_open_long_fut: XtApi.open_long_fut (xt.py lines 404-440). -/
def xt_open_long_fut (ds : String) (symbol : Option String)
    (price qty : Option ℚ) (order_type tif : String) : Except String XtOrderReq :=
  (xt_get_fut_params ds symbol price qty order_type tif).map fun x =>
    match x with
    | (s, p, q, t) =>
      { venue := xtVenueOf s, symbol := s, amount := q, order_side := "BUY",
        order_type := order_type, position_side := "LONG", price := p,
        time_in_force := t }

/-- xt_close_long_fut: XtApi.close_long_fut (xt.py lines 442-477). -/
def xt_close_long_fut (ds : String) (symbol : Option String)
    (price qty : Option ℚ) (order_type tif : String) : Except String XtOrderReq :=
  (xt_get_fut_params ds symbol price qty order_type tif).map fun x =>
    match x with
    | (s, p, q, t) =>
      { venue := xtVenueOf s, symbol := s, amount := q, order_side := "SELL",
        order_type := order_type, position_side := "LONG", price := p,
        time_in_force := t }

/-- xt_open_short_fut: XtApi.open_short_fut (xt.py lines 479-514). -/
def xt_open_short_fut (ds : String) (symbol : Option String)
    (price qty : Option ℚ) (order_type tif : String) : Except String XtOrderReq :=
  (xt_get_fut_params ds symbol price qty order_type tif).map fun x =>
    match x with
    | (s, p, q, t) =>
      { venue := xtVenueOf s, symbol := s, amount := q, order_side := "SELL",
        order_type := order_type, position_side := "SHORT", price := p,
        time_in_force := t }

/-- xt_close_short_fut: XtApi.close_short_fut (xt.py lines 516-551). -/
def xt_close_short_fut (ds : String) (symbol : Option String)
    (price qty : Option ℚ) (order_type tif : String) : Except String XtOrderReq :=
  (xt_get_fut_params ds symbol price qty order_type tif).map fun x =>
    match x with
    | (s, p, q, t) =>
      { venue := xtVenueOf s, symbol := s, amount := q, order_side := "BUY",
        order_type := order_type, position_side := "SHORT", price := p,
        time_in_force := t }

/-- Order sent by XtApi.order / XtApi.buy_spot. -/
structure XtSpotOrder where
  symbol : String
  side : String
  order_type : String
  time_in_force : String
  price : Option ℚ
  quantity : Option ℚ
  quote_qty : Option ℚ
deriving DecidableEq

/-- xt_buy_spot: XtApi.buy_spot (xt.py lines 155-166) — a MARKET buy
clears price and quantity and sends `quote_qty = round(quantity *
price, 2)` computed from the price argument; the str conversions only
affect wire formatting. -/
def xt_buy_spot (symbol : String) (price quantity : ℚ)
    (order_type time_in_force : String) : XtSpotOrder :=
  if order_type == "MARKET" then
    { symbol := symbol, side := "BUY", order_type := order_type,
      time_in_force := time_in_force, price := none, quantity := none,
      quote_qty := some (pyRound (quantity * price) 2) }
  else
    { symbol := symbol, side := "BUY", order_type := order_type,
      time_in_force := time_in_force, price := some price,
      quantity := some quantity, quote_qty := none }

/-- optStrFalsy s: Python truthiness `not symbol` on an optional string
— true for None and for the empty string. -/
def optStrFalsy : Option String → Bool
  | none => true
  | some s => s == ""

/-- xt_cancel_fut_open_orders: XtApi.cancel_fut_open_orders (xt.py lines
310-337) with the two venue clients' responses as explicit inputs.  The
`if symbol:` guard at line 319 is a truthiness test, so None and the
empty string both take the cancel-both branch.  The first output
component lists the venue clients that are sent a cancel-all request,
the second is the returned `res` dict. -/
def xt_cancel_fut_open_orders {α : Type} (symbol : Option String)
    (umResp cmResp : α) : List String × List (String × α) :=
  if optStrFalsy symbol = false then
    if strEndsWith (symbol.getD "") "usdt" then (["um"], [("um", umResp)])
    else if strEndsWith (symbol.getD "") "usd" then (["cm"], [("cm", cmResp)])
    else ([], [])
  else (["um", "cm"], [("um", umResp), ("cm", cmResp)])

/-- pmParams: the params dict of BinancePmTestWrapper._get_fut_params
(binance_PM_addon.py lines 832-846) after filtering None values, in
source dict order. -/
def pmParams (symbol : String) (price : Option ℚ) (qty : ℚ)
    (tif : Option String) (order_type : String) : List (String × PVal) :=
  [("symbol", PVal.s symbol)] ++
  (match price with
   | none => []
   | some p => [("price", PVal.q p)]) ++
  [("quantity", PVal.q qty)] ++
  (match tif with
   | none => []
   | some t => [("timeInForce", PVal.s t)]) ++
  [("type", PVal.s order_type)]

/-- pm_get_fut_params: BinancePmTestWrapper._get_fut_params
(binance_PM_addon.py lines 832-846).  For MARKET a truthy time-in-force
is set to None (and dropped); a falsy one (the empty string) is kept. -/
def pm_get_fut_params (symbol : String) (price0 : Option ℚ) (qty : ℚ)
    (order_type time_in_force : String) : Except String (List (String × PVal)) :=
  if order_type == "MARKET" then
    .ok (pmParams symbol none qty
      (if strFalsy time_in_force then some time_in_force else none) order_type)
  else
    if priceFalsy price0 then .error "Price is required for LIMIT order"
    else .ok (pmParams symbol price0 qty
      (some (if strFalsy time_in_force then "GTC" else time_in_force)) order_type)

/-- pm_open_long_fut: BinancePmTestWrapper.open_long_fut
(binance_PM_addon.py lines 848-866) — side "BUY", positionSide "LONG". -/
def pm_open_long_fut (symbol : String) (price : Option ℚ) (qty : ℚ)
    (order_type tif : String) : Except String (List (String × PVal)) :=
  (pm_get_fut_params symbol price qty order_type tif).map
    (· ++ [("side", PVal.s "BUY"), ("positionSide", PVal.s "LONG")])

/-- pm_close_long_fut: BinancePmTestWrapper.close_long_fut
(binance_PM_addon.py lines 868-886) — side "SELL", positionSide "LONG". -/
def pm_close_long_fut (symbol : String) (price : Option ℚ) (qty : ℚ)
    (order_type tif : String) : Except String (List (String × PVal)) :=
  (pm_get_fut_params symbol price qty order_type tif).map
    (· ++ [("side", PVal.s "SELL"), ("positionSide", PVal.s "LONG")])

/-- pm_open_short_fut: BinancePmTestWrapper.open_short_fut
(binance_PM_addon.py lines 888-906) — side "SELL", positionSide "SHORT". -/
def pm_open_short_fut (symbol : String) (price : Option ℚ) (qty : ℚ)
    (order_type tif : String) : Except String (List (String × PVal)) :=
  (pm_get_fut_params symbol price qty order_type tif).map
    (· ++ [("side", PVal.s "SELL"), ("positionSide", PVal.s "SHORT")])

/-- pm_close_short_fut: BinancePmTestWrapper.close_short_fut
(binance_PM_addon.py lines 908-926) — side "BUY", positionSide "SHORT". -/
def pm_close_short_fut (symbol : String) (price : Option ℚ) (qty : ℚ)
    (order_type tif : String) : Except String (List (String × PVal)) :=
  (pm_get_fut_params symbol price qty order_type tif).map
    (· ++ [("side", PVal.s "BUY"), ("positionSide", PVal.s "SHORT")])

/-- qTrunc q: Python `int()` truncation toward zero of a rational —
`Int.tdiv` is T-division, rounding the quotient toward zero. -/
def qTrunc (q : ℚ) : ℤ :=
  Int.tdiv q.num (q.den : ℤ)

/-- binance_test_open_long_fut_params: the order params built by
binanceApi.test_open_long_fut (binance_api.py lines 366-413): plain
Binance USD-M futures addressed in one-way mode — no positionSide key.
`current_price` is the mark-price input. -/
def binance_test_open_long_fut_params (default_symbol : String)
    (current_price : ℚ) (price_prec qty_prec : ℕ)
    (default_quantity cont_size : ℚ) : List (String × PVal) :=
  let buy_price := pyRound (current_price * (9 / 10)) price_prec
  let _qty : ℚ :=
    if qty_prec = 0 then (qTrunc (default_quantity / cont_size) : ℚ)
    else pyRound (default_quantity / cont_size) qty_prec
  [("symbol", PVal.s default_symbol), ("side", PVal.s "BUY"),
   ("type", PVal.s "LIMIT"), ("timeInForce", PVal.s "GTC"),
   ("quantity", PVal.q _qty), ("price", PVal.q buy_price)]

/-- binance_test_close_long_fut_params: the order params built by
binanceApi.test_close_long_fut (binance_api.py lines 415-462) — again
without any positionSide key. -/
def binance_test_close_long_fut_params (default_symbol : String)
    (current_price : ℚ) (price_prec qty_prec : ℕ)
    (default_quantity cont_size : ℚ) : List (String × PVal) :=
  let sell_price := pyRound (current_price * (11 / 10)) price_prec
  let _qty : ℚ :=
    if qty_prec = 0 then (qTrunc (default_quantity / cont_size) : ℚ)
    else pyRound (default_quantity / cont_size) qty_prec
  [("symbol", PVal.s default_symbol), ("side", PVal.s "SELL"),
   ("type", PVal.s "LIMIT"), ("timeInForce", PVal.s "GTC"),
   ("quantity", PVal.q _qty), ("price", PVal.q sell_price)]

theorem map_append_mem {e : Except String (List (String × PVal))}
    {tail ps : List (String × PVal)} (h : e.map (· ++ tail) = .ok ps) :
    ∀ kv ∈ tail, kv ∈ ps := by
  cases e with
  | error s => simp [Except.map] at h
  | ok l =>
    simp only [Except.map, Except.ok.injEq] at h
    subst h
    intro kv hkv
    exact List.mem_append_right l hkv

/-- Claim C5: a LIMIT order intent with an absent price is rejected
locally by order translation with the "price required" error, and the
result is the same for every value of the just-in-time price input —
hence no venue network call is consulted — in the OKX, XT and
Binance-PM translators; the price is never defaulted. -/
theorem limit_order_missing_price_rejected (symbol td_mode tif ds : String)
    (qty : ℚ) (qtyO : Option ℚ) (is_fut : Bool) (price : Option ℚ)
    (hp : priceFalsy price = true) :
    (∀ sp : ℚ, okx_get_order_params sp symbol price qty "limit" td_mode is_fut =
      .error "Price is required for LIMIT order") ∧
    (∀ sp₁ sp₂ : ℚ,
      okx_get_order_params sp₁ symbol price qty "limit" td_mode is_fut =
      okx_get_order_params sp₂ symbol price qty "limit" td_mode is_fut) ∧
    xt_get_fut_params ds (some symbol) price qtyO "LIMIT" tif =
      .error "Price is required for LIMIT order" ∧
    pm_get_fut_params symbol price qty "LIMIT" tif =
      .error "Price is required for LIMIT order" := by
  have hc : "limit" ∈ okxPriceReq := by decide
  have hokx : ∀ sp : ℚ,
      okx_get_order_params sp symbol price qty "limit" td_mode is_fut =
        .error "Price is required for LIMIT order" := by
    intro sp
    simp [okx_get_order_params, hc, hp]
  refine ⟨hokx, fun sp₁ sp₂ => by rw [hokx sp₁, hokx sp₂], ?_, ?_⟩
  · simp [xt_get_fut_params, hp]
  · simp [pm_get_fut_params, hp]

/-- Concrete instance: a LIMIT intent with price None is rejected
locally by all three translators. -/
theorem limit_order_missing_price_rejected_witness :
    okx_get_order_params 37 "BTC-USDT" none 1 "limit" "cross" false =
      .error "Price is required for LIMIT order" ∧
    xt_get_fut_params "BTC_USDT" (some "BTC_USDT") none (some 1) "LIMIT" "" =
      .error "Price is required for LIMIT order" ∧
    pm_get_fut_params "BTCUSDT" none 1 "LIMIT" "" =
      .error "Price is required for LIMIT order" :=
  ⟨(limit_order_missing_price_rejected "BTC-USDT" "cross" "" "" 1 (some 1) false
      none (by decide)).1 37,
   (limit_order_missing_price_rejected "BTC_USDT" "" "" "BTC_USDT" 1 (some 1) false
      none (by decide)).2.2.1,
   (limit_order_missing_price_rejected "BTCUSDT" "" "" "" 1 (some 1) false
      none (by decide)).2.2.2⟩

/-- Claim C6: a MARKET spot BUY drops the price and sizes the order in
quote currency — OKX sends sz = quantity * (just-fetched spot price)
and no px field; XT sends quote_qty = round(quantity * price, 2) with
price and quantity cleared — and at quantity 0.001 and current price
50000 the quote quantity is 50. -/
theorem market_spot_buy_quote_sizing (spotPrice : ℚ) (symbol td_mode tif : String)
    (price : Option ℚ) (p qty : ℚ) :
    okx_buy_spot spotPrice symbol price qty "market" td_mode =
      .ok [("instId", PVal.s symbol), ("sz", PVal.q (qty * spotPrice)),
           ("ordType", PVal.s "market"), ("tdMode", PVal.s td_mode),
           ("side", PVal.s "buy")] ∧
    xt_buy_spot symbol p qty "MARKET" tif =
      { symbol := symbol, side := "BUY", order_type := "MARKET",
        time_in_force := tif, price := none, quantity := none,
        quote_qty := some (pyRound (qty * p) 2) } ∧
    (1 / 1000 : ℚ) * 50000 = 50 ∧ pyRound ((1 / 1000 : ℚ) * 50000) 2 = 50 := by
  have hc : "market" ∉ okxPriceReq := by decide
  have h50 : ((1 / 1000 : ℚ) * 50000) = ((50 : ℤ) : ℚ) := by norm_num
  refine ⟨?_, ?_, by norm_num, ?_⟩
  · simp [okx_buy_spot, okx_get_order_params, hc, Except.map]
  · simp [xt_buy_spot]
  · rw [h50]
    unfold pyRound
    have h2 : ((50 : ℤ) : ℚ) * 10 ^ 2 = ((5000 : ℤ) : ℚ) := by norm_num
    rw [h2, roundHalfEven_intCast]
    norm_num

/-- Claim C7: the position-intent table — OPEN_LONG → (BUY, LONG),
CLOSE_LONG → (SELL, LONG), OPEN_SHORT → (SELL, SHORT), CLOSE_SHORT →
(BUY, SHORT) — holds in the OKX, XT and Binance-PM futures order
methods, and the plain Binance futures methods (a venue addressed in
one-way mode, with no positionSide concept) omit the positionSide field
entirely. -/
theorem position_intent_mapping (spotPrice : ℚ) (symbol td ds tif ot : String)
    (price : Option ℚ) (qty : ℚ) (symO : Option String) (priceO qtyO : Option ℚ)
    (cp dq cs : ℚ) (pp qp : ℕ) :
    (∀ ps, okx_open_long_fut spotPrice symbol price qty ot td = .ok ps →
      ("side", PVal.s "buy") ∈ ps ∧ ("posSide", PVal.s "long") ∈ ps) ∧
    (∀ ps, okx_close_long_fut spotPrice symbol price qty ot td = .ok ps →
      ("side", PVal.s "sell") ∈ ps ∧ ("posSide", PVal.s "long") ∈ ps) ∧
    (∀ ps, okx_open_short_fut spotPrice symbol price qty ot td = .ok ps →
      ("side", PVal.s "sell") ∈ ps ∧ ("posSide", PVal.s "short") ∈ ps) ∧
    (∀ ps, okx_close_short_fut spotPrice symbol price qty ot td = .ok ps →
      ("side", PVal.s "buy") ∈ ps ∧ ("posSide", PVal.s "short") ∈ ps) ∧
    (∀ r, xt_open_long_fut ds symO priceO qtyO ot tif = .ok r →
      r.order_side = "BUY" ∧ r.position_side = "LONG") ∧
    (∀ r, xt_close_long_fut ds symO priceO qtyO ot tif = .ok r →
      r.order_side = "SELL" ∧ r.position_side = "LONG") ∧
    (∀ r, xt_open_short_fut ds symO priceO qtyO ot tif = .ok r →
      r.order_side = "SELL" ∧ r.position_side = "SHORT") ∧
    (∀ r, xt_close_short_fut ds symO priceO qtyO ot tif = .ok r →
      r.order_side = "BUY" ∧ r.position_side = "SHORT") ∧
    (∀ ps, pm_open_long_fut symbol price qty ot tif = .ok ps →
      ("side", PVal.s "BUY") ∈ ps ∧ ("positionSide", PVal.s "LONG") ∈ ps) ∧
    (∀ ps, pm_close_long_fut symbol price qty ot tif = .ok ps →
      ("side", PVal.s "SELL") ∈ ps ∧ ("positionSide", PVal.s "LONG") ∈ ps) ∧
    (∀ ps, pm_open_short_fut symbol price qty ot tif = .ok ps →
      ("side", PVal.s "SELL") ∈ ps ∧ ("positionSide", PVal.s "SHORT") ∈ ps) ∧
    (∀ ps, pm_close_short_fut symbol price qty ot tif = .ok ps →
      ("side", PVal.s "BUY") ∈ ps ∧ ("positionSide", PVal.s "SHORT") ∈ ps) ∧
    "positionSide" ∉
      (binance_test_open_long_fut_params symbol cp pp qp dq cs).map Prod.fst ∧
    "positionSide" ∉
      (binance_test_close_long_fut_params symbol cp pp qp dq cs).map Prod.fst := by
  refine ⟨?_, ?_, ?_, ?_, ?_, ?_, ?_, ?_, ?_, ?_, ?_, ?_, ?_, ?_⟩
  · intro ps h
    exact ⟨map_append_mem h _ (by simp), map_append_mem h _ (by simp)⟩
  · intro ps h
    exact ⟨map_append_mem h _ (by simp), map_append_mem h _ (by simp)⟩
  · intro ps h
    exact ⟨map_append_mem h _ (by simp), map_append_mem h _ (by simp)⟩
  · intro ps h
    exact ⟨map_append_mem h _ (by simp), map_append_mem h _ (by simp)⟩
  · intro r h
    cases he : xt_get_fut_params ds symO priceO qtyO ot tif with
    | error s => rw [xt_open_long_fut, he] at h; simp [Except.map] at h
    | ok v =>
      rw [xt_open_long_fut, he] at h
      obtain ⟨s, p, q, t⟩ := v
      simp only [Except.map, Except.ok.injEq] at h
      subst h
      exact ⟨rfl, rfl⟩
  · intro r h
    cases he : xt_get_fut_params ds symO priceO qtyO ot tif with
    | error s => rw [xt_close_long_fut, he] at h; simp [Except.map] at h
    | ok v =>
      rw [xt_close_long_fut, he] at h
      obtain ⟨s, p, q, t⟩ := v
      simp only [Except.map, Except.ok.injEq] at h
      subst h
      exact ⟨rfl, rfl⟩
  · intro r h
    cases he : xt_get_fut_params ds symO priceO qtyO ot tif with
    | error s => rw [xt_open_short_fut, he] at h; simp [Except.map] at h
    | ok v =>
      rw [xt_open_short_fut, he] at h
      obtain ⟨s, p, q, t⟩ := v
      simp only [Except.map, Except.ok.injEq] at h
      subst h
      exact ⟨rfl, rfl⟩
  · intro r h
    cases he : xt_get_fut_params ds symO priceO qtyO ot tif with
    | error s => rw [xt_close_short_fut, he] at h; simp [Except.map] at h
    | ok v =>
      rw [xt_close_short_fut, he] at h
      obtain ⟨s, p, q, t⟩ := v
      simp only [Except.map, Except.ok.injEq] at h
      subst h
      exact ⟨rfl, rfl⟩
  · intro ps h
    exact ⟨map_append_mem h _ (by simp), map_append_mem h _ (by simp)⟩
  · intro ps h
    exact ⟨map_append_mem h _ (by simp), map_append_mem h _ (by simp)⟩
  · intro ps h
    exact ⟨map_append_mem h _ (by simp), map_append_mem h _ (by simp)⟩
  · intro ps h
    exact ⟨map_append_mem h _ (by simp), map_append_mem h _ (by simp)⟩
  · simp [binance_test_open_long_fut_params]
  · simp [binance_test_close_long_fut_params]

/-- Concrete instances of the position-intent mapping: an OKX LIMIT
open-long at price 100, an XT MARKET open-long, a Binance-PM LIMIT
close-short, each successfully translated with the table's pair. -/
theorem position_intent_mapping_witness :
    (("side", PVal.s "buy") ∈
        [("instId", PVal.s "BTC-USDT-SWAP"), ("px", PVal.q 100),
         ("sz", PVal.q 1), ("ordType", PVal.s "limit"),
         ("tdMode", PVal.s "cross"), ("side", PVal.s "buy"),
         ("posSide", PVal.s "long")] ∧
      ("posSide", PVal.s "long") ∈
        [("instId", PVal.s "BTC-USDT-SWAP"), ("px", PVal.q 100),
         ("sz", PVal.q 1), ("ordType", PVal.s "limit"),
         ("tdMode", PVal.s "cross"), ("side", PVal.s "buy"),
         ("posSide", PVal.s "long")]) ∧
    (∀ r, xt_open_long_fut "BTC_USDT" none none (some 1) "MARKET" "" = .ok r →
      r.order_side = "BUY" ∧ r.position_side = "LONG") ∧
    "positionSide" ∉
      (binance_test_open_long_fut_params "BTCUSDT" 50000 2 0 1 1).map Prod.fst :=
  ⟨(position_intent_mapping 7 "BTC-USDT-SWAP" "cross" "BTC_USDT" "" "limit"
      (some 100) 1 none none (some 1) 50000 1 1 2 0).1 _ rfl,
   (position_intent_mapping 7 "BTC-USDT-SWAP" "cross" "BTC_USDT" "" "MARKET"
      (some 100) 1 none none (some 1) 50000 1 1 2 0).2.2.2.2.1,
   (position_intent_mapping 7 "BTCUSDT" "cross" "BTC_USDT" "" "LIMIT"
      (some 100) 1 none none (some 1) 50000 1 1 2 0).2.2.2.2.2.2.2.2.2.2.2.2.1⟩

/-- Counterexample to claim C10 as stated: the empty string ends with
neither "usdt" nor "usd", yet `if symbol:` is false for "" so the code
takes the no-symbol branch and issues cancel-all requests to BOTH venue
clients instead of returning the empty dict. -/
theorem cancel_fut_empty_symbol_counterexample :
    strEndsWith "" "usdt" = false ∧ strEndsWith "" "usd" = false ∧
    xt_cancel_fut_open_orders (some "") "umResp" "cmResp" =
      (["um", "cm"], [("um", "umResp"), ("cm", "cmResp")]) ∧
    ¬ xt_cancel_fut_open_orders (some "") "umResp" "cmResp" =
        (([] : List String), ([] : List (String × String))) := by
  decide

/-- Claim C10 (amended): for every nonempty symbol that ends with
neither lowercase "usdt" nor lowercase "usd" (e.g. the uppercase
"BTCUSDT"), cancel_fut_open_orders contacts neither the USDT-margined
nor the coin-margined client and returns the empty dict with no error;
a falsy symbol (None or the empty string) instead takes the
cancel-both branch. -/
theorem cancel_fut_unmatched_suffix {α : Type} (s : String) (u c : α)
    (hne : s ≠ "")
    (h1 : strEndsWith s "usdt" = false) (h2 : strEndsWith s "usd" = false) :
    xt_cancel_fut_open_orders (some s) u c = ([], []) := by
  have hf : optStrFalsy (some s) = false := beq_eq_false_iff_ne.mpr hne
  simp [xt_cancel_fut_open_orders, hf, h1, h2]

/-- Concrete instance: the nonempty uppercase symbol "BTCUSDT" matches
neither suffix, so no cancel request is issued and the result dict is
empty. -/
theorem cancel_fut_unmatched_suffix_witness :
    "BTCUSDT" ≠ "" ∧
    strEndsWith "BTCUSDT" "usdt" = false ∧
    strEndsWith "BTCUSDT" "usd" = false ∧
    xt_cancel_fut_open_orders (some "BTCUSDT") "umResp" "cmResp" = ([], []) :=
  ⟨by decide, by decide, by decide,
   cancel_fut_unmatched_suffix "BTCUSDT" "umResp" "cmResp"
     (by decide) (by decide) (by decide)⟩

/-! ## HMAC query-string signer (binance_PM_addon.py, BinancePMClient)

`send_signed_request` (lines 53-69) canonicalizes the payload with
`urlencode`, rewrites "%27" to "%22", appends the millisecond timestamp
from `get_timestamp()` (the explicit input `ts` here), and appends
`&signature=` followed by the lowercase hex HMAC-SHA256 digest of the
query string keyed by the API secret (`hashing`, lines 18-22).  Bytes
are Nats below 256; 32-bit words are Nats reduced mod 2^32. -/

/-- utf8Enc c: UTF-8 encoding of one code point, as Python
`str.encode("utf-8")` produces. -/
def utf8Enc (c : Char) : List Nat :=
  let n := c.toNat
  if n < 128 then [n]
  else if n < 2048 then [192 ||| (n >>> 6), 128 ||| (n &&& 63)]
  else if n < 65536 then
    [224 ||| (n >>> 12), 128 ||| ((n >>> 6) &&& 63), 128 ||| (n &&& 63)]
  else
    [240 ||| (n >>> 18), 128 ||| ((n >>> 12) &&& 63),
     128 ||| ((n >>> 6) &&& 63), 128 ||| (n &&& 63)]

/-- utf8Bytes s: the UTF-8 byte sequence of a string. -/
def utf8Bytes (s : String) : List Nat :=
  s.data.foldr (fun c acc => utf8Enc c ++ acc) []

/-- hexUpperChar n: uppercase hex digit for n < 16. -/
def hexUpperChar (n : Nat) : Char :=
  if n < 10 then Char.ofNat (48 + n) else Char.ofNat (55 + n)

/-- hexLowerChar n: lowercase hex digit for n < 16. -/
def hexLowerChar (n : Nat) : Char :=
  if n < 10 then Char.ofNat (48 + n) else Char.ofNat (87 + n)

/-- isUrlSafe b: the always-safe byte set of urllib's quote_plus —
ASCII letters, digits, underscore, dot, hyphen and tilde. -/
def isUrlSafe (b : Nat) : Bool :=
  (48 ≤ b && b ≤ 57) || (65 ≤ b && b ≤ 90) || (97 ≤ b && b ≤ 122) ||
  b == 95 || b == 46 || b == 45 || b == 126

/-- quotePlus s: urllib.parse.quote_plus — a space becomes "+", other
unsafe bytes become uppercase percent escapes of their UTF-8 bytes. -/
def quotePlus (s : String) : String :=
  ⟨(utf8Bytes s).foldr (fun b acc =>
    (if isUrlSafe b then [Char.ofNat b]
     else if b == 32 then ['+']
     else ['%', hexUpperChar (b >>> 4), hexUpperChar (b &&& 15)]) ++ acc) []⟩

/-- joinQuery parts: "&".join(parts). -/
def joinQuery : List String → String
  | [] => ""
  | [x] => x
  | x :: y :: rest => x ++ "&" ++ joinQuery (y :: rest)

/-- urlencode payload: urllib.parse.urlencode on the parameter map —
quote_plus-quoted "k=v" pairs joined with "&" in stable insertion
order. -/
def urlencode (payload : List (String × String)) : String :=
  joinQuery (payload.map fun kv => quotePlus kv.1 ++ "=" ++ quotePlus kv.2)

/-- replScan p r l skip: one left-to-right pass over l replacing each
occurrence of p by r; skip counts pattern characters already consumed
by an emitted replacement. -/
def replScan (p r : List Char) : List Char → Nat → List Char
  | [], _ => []
  | _ :: t, skip + 1 => replScan p r t skip
  | c :: t, 0 =>
      if leadMatch p (c :: t) && !p.isEmpty then
        r ++ replScan p r t (p.length - 1)
      else c :: replScan p r t 0

/-- pyReplace s pat rep: Python `s.replace(pat, rep)` for a nonempty
pattern. -/
def pyReplace (s pat rep : String) : String :=
  ⟨replScan pat.data rep.data s.data 0⟩

/-- sha256K: the 64 SHA-256 round constants of FIPS 180-4. -/
def sha256K : List Nat :=
  [1116352408, 1899447441, 3049323471, 3921009573,
   961987163, 1508970993, 2453635748, 2870763221,
   3624381080, 310598401, 607225278, 1426881987,
   1925078388, 2162078206, 2614888103, 3248222580,
   3835390401, 4022224774, 264347078, 604807628,
   770255983, 1249150122, 1555081692, 1996064986,
   2554220882, 2821834349, 2952996808, 3210313671,
   3336571891, 3584528711, 113926993, 338241895,
   666307205, 773529912, 1294757372, 1396182291,
   1695183700, 1986661051, 2177026350, 2456956037,
   2730485921, 2820302411, 3259730800, 3345764771,
   3516065817, 3600352804, 4094571909, 275423344,
   430227734, 506948616, 659060556, 883997877,
   958139571, 1322822218, 1537002063, 1747873779,
   1955562222, 2024104815, 2227730452, 2361852424,
   2428436474, 2756734187, 3204031479, 3329325298]

/-- M32: 2^32, the 32-bit word modulus. -/
def M32 : Nat := 4294967296

/-- rotr32 n x: right-rotation of a 32-bit word by n. -/
def rotr32 (n x : Nat) : Nat :=
  ((x >>> n) ||| (x <<< (32 - n))) % M32

/-- sigmaA0 x: the Σ0 function of SHA-256. -/
def sigmaA0 (x : Nat) : Nat := rotr32 2 x ^^^ rotr32 13 x ^^^ rotr32 22 x

/-- sigmaA1 x: the Σ1 function of SHA-256. -/
def sigmaA1 (x : Nat) : Nat := rotr32 6 x ^^^ rotr32 11 x ^^^ rotr32 25 x

/-- sigmaB0 x: the σ0 function of SHA-256. -/
def sigmaB0 (x : Nat) : Nat := rotr32 7 x ^^^ rotr32 18 x ^^^ (x >>> 3)

/-- sigmaB1 x: the σ1 function of SHA-256. -/
def sigmaB1 (x : Nat) : Nat := rotr32 17 x ^^^ rotr32 19 x ^^^ (x >>> 10)

/-- chooseF x y z: the SHA-256 choose function. -/
def chooseF (x y z : Nat) : Nat := (x &&& y) ^^^ ((x ^^^ 4294967295) &&& z)

/-- majorityF x y z: the SHA-256 majority function. -/
def majorityF (x y z : Nat) : Nat := (x &&& y) ^^^ (x &&& z) ^^^ (y &&& z)

/-- Working state of the SHA-256 compression function. -/
structure Sha256State where
  a : Nat
  b : Nat
  c : Nat
  d : Nat
  e : Nat
  f : Nat
  g : Nat
  h : Nat

/-- sha256H0: the initial SHA-256 hash state of FIPS 180-4. -/
def sha256H0 : Sha256State :=
  ⟨1779033703, 3144134277, 1013904242, 2773480762,
   1359893119, 2600822924, 528734635, 1541459225⟩

/-- beBytes8 n: the 8-byte big-endian encoding of n. -/
def beBytes8 (n : Nat) : List Nat :=
  [(n >>> 56) &&& 255, (n >>> 48) &&& 255, (n >>> 40) &&& 255,
   (n >>> 32) &&& 255, (n >>> 24) &&& 255, (n >>> 16) &&& 255,
   (n >>> 8) &&& 255, n &&& 255]

/-- sha256Pad msg: append the 0x80 marker, zero padding to 56 mod 64,
then the 64-bit big-endian bit length. -/
def sha256Pad (msg : List Nat) : List Nat :=
  msg ++ [128] ++ List.replicate ((64 - (msg.length + 9) % 64) % 64) 0 ++
    beBytes8 (msg.length * 8)

/-- toWords bs: big-endian 32-bit words from a byte list. -/
def toWords : List Nat → List Nat
  | b0 :: b1 :: b2 :: b3 :: rest =>
      ((b0 <<< 24) ||| (b1 <<< 16) ||| (b2 <<< 8) ||| b3) :: toWords rest
  | _ => []

/-- chunks64 bs: split a byte list into 64-byte blocks. -/
def chunks64 (l : List Nat) : List (List Nat) :=
  if h : l = [] then []
  else (l.take 64) :: chunks64 (l.drop 64)
termination_by l.length
decreasing_by
  have hl : 0 < l.length := List.length_pos.mpr h
  simp [List.length_drop]
  omega

/-- msgSchedule w16: extend the 16 block words to the 64-word message
schedule. -/
def msgSchedule (w16 : List Nat) : List Nat :=
  (List.range 48).foldl (fun ws _ =>
    let n := ws.length
    ws ++ [(sigmaB1 (ws.getD (n - 2) 0) + ws.getD (n - 7) 0 +
            sigmaB0 (ws.getD (n - 15) 0) + ws.getD (n - 16) 0) % M32]) w16

/-- sha256Round st kw: one SHA-256 compression round with constant and
schedule word kw. -/
def sha256Round (st : Sha256State) (kw : Nat × Nat) : Sha256State :=
  let t1 := (st.h + sigmaA1 st.e + chooseF st.e st.f st.g + kw.1 + kw.2) % M32
  let t2 := (sigmaA0 st.a + majorityF st.a st.b st.c) % M32
  ⟨(t1 + t2) % M32, st.a, st.b, st.c, (st.d + t1) % M32, st.e, st.f, st.g⟩

/-- compressBlock st block: the SHA-256 compression function on one
64-byte block, with the feed-forward addition. -/
def compressBlock (st : Sha256State) (block : List Nat) : Sha256State :=
  let ws := msgSchedule (toWords block)
  let r := (sha256K.zip ws).foldl sha256Round st
  ⟨(st.a + r.a) % M32, (st.b + r.b) % M32, (st.c + r.c) % M32,
   (st.d + r.d) % M32, (st.e + r.e) % M32, (st.f + r.f) % M32,
   (st.g + r.g) % M32, (st.h + r.h) % M32⟩

/-- wordBytes4 w: big-endian bytes of a 32-bit word. -/
def wordBytes4 (w : Nat) : List Nat :=
  [(w >>> 24) &&& 255, (w >>> 16) &&& 255, (w >>> 8) &&& 255, w &&& 255]

/-- sha256 msg: the FIPS 180-4 SHA-256 digest (32 bytes) of a byte
list. -/
def sha256 (msg : List Nat) : List Nat :=
  let fin := (chunks64 (sha256Pad msg)).foldl compressBlock sha256H0
  wordBytes4 fin.a ++ wordBytes4 fin.b ++ wordBytes4 fin.c ++
    wordBytes4 fin.d ++ wordBytes4 fin.e ++ wordBytes4 fin.f ++
    wordBytes4 fin.g ++ wordBytes4 fin.h

/-- hmacSha256 key msg: RFC 2104 HMAC over SHA-256 with a 64-byte block
size. -/
def hmacSha256 (key msg : List Nat) : List Nat :=
  let k0 := if 64 < key.length then sha256 key else key
  let kp := k0 ++ List.replicate (64 - k0.length) 0
  sha256 ((kp.map (· ^^^ 92)) ++ sha256 ((kp.map (· ^^^ 54)) ++ msg))

/-- hexOfBytes bs: lowercase hex string of a byte list, as
`hexdigest()` returns. -/
def hexOfBytes (bs : List Nat) : String :=
  ⟨bs.foldr (fun b acc =>
    hexLowerChar (b >>> 4) :: hexLowerChar (b &&& 15) :: acc) []⟩

/-- hashing secret query: BinancePMClient.hashing (lines 18-22) —
`hmac.new(secret.encode("utf-8"), query.encode("utf-8"),
sha256).hexdigest()`. -/
def hashing (api_secret query_string : String) : String :=
  hexOfBytes (hmacSha256 (utf8Bytes api_secret) (utf8Bytes query_string))

/-- signedQuery payload ts: the query string assembled by
send_signed_request before signing — urlencode, the "%27" → "%22"
rewrite, then the millisecond timestamp with the separator only when
parameters are present. -/
def signedQuery (payload : List (String × String)) (ts : Nat) : String :=
  if pyReplace (urlencode payload) "%27" "%22" == "" then
    "timestamp=" ++ toString ts
  else
    pyReplace (urlencode payload) "%27" "%22" ++ "&timestamp=" ++ toString ts

/-- send_signed_request: the signed URL built by
BinancePMClient.send_signed_request (lines 53-69); `get_timestamp()` is
the explicit input ts. -/
def send_signed_request (api_secret base_url url_path : String)
    (payload : List (String × String)) (ts : Nat) : String :=
  base_url ++ url_path ++ "?" ++ signedQuery payload ts ++ "&signature=" ++
    hashing api_secret (signedQuery payload ts)

theorem leadMatch_length {p : List Char} :
    ∀ {l : List Char}, leadMatch p l = true → p.length ≤ l.length := by
  induction p with
  | nil => intro l _; simp
  | cons a n ih =>
    intro l hm
    cases l with
    | nil => simp [leadMatch] at hm
    | cons b t =>
      simp only [leadMatch, Bool.and_eq_true] at hm
      simpa using ih hm.2

theorem replScan_length {p r : List Char} (hpr : p.length = r.length) :
    ∀ (l : List Char) (k : Nat), (replScan p r l k).length = l.length - k := by
  intro l
  induction l with
  | nil => intro k; simp [replScan]
  | cons c t ih =>
    intro k
    match k with
    | k + 1 =>
      simp only [replScan, ih k, List.length_cons]
      omega
    | 0 =>
      simp only [replScan]
      split
      · rename_i hb
        simp only [Bool.and_eq_true] at hb
        obtain ⟨hm, hne⟩ := hb
        have hml : p.length ≤ t.length + 1 := by
          simpa using leadMatch_length hm
        have hple : 1 ≤ p.length := by
          cases p with
          | nil => simp at hne
          | cons _ _ => simp
        rw [List.length_append, ih (p.length - 1)]
        simp only [List.length_cons]
        omega
      · simp only [List.length_cons, ih 0]
        omega

theorem pyReplace_length (s pat rep : String) (hpr : pat.length = rep.length) :
    (pyReplace s pat rep).length = s.length := by
  show (replScan pat.data rep.data s.data 0).length = s.data.length
  rw [replScan_length hpr s.data 0]
  omega

theorem urlencode_length_pos (payload : List (String × String))
    (hne : payload ≠ []) : 0 < (urlencode payload).length := by
  cases payload with
  | nil => exact absurd rfl hne
  | cons kv rest =>
    have h1 : ("=" : String).length = 1 := rfl
    cases rest with
    | nil =>
      simp only [urlencode, List.map, joinQuery, String.length_append, h1]
      omega
    | cons kv2 r2 =>
      simp only [urlencode, List.map, joinQuery, String.length_append, h1]
      omega

/-- Claim C8: the HMAC signer is deterministic — identical (secret,
base, path, parameter map, timestamp) inputs give the identical signed
URL — and the URL decomposes as base ++ path ++ "?" ++ qs ++
"&signature=" ++ hex(HMAC-SHA256(secret, qs)), where qs is the stable
insertion-ordered urlencoding of the parameters with the millisecond
timestamp appended. -/
theorem send_signed_request_spec (secret base path : String)
    (payload : List (String × String)) (ts : Nat) (hne : payload ≠ []) :
    (∀ ts₂ : Nat, ts₂ = ts →
      send_signed_request secret base path payload ts₂ =
      send_signed_request secret base path payload ts) ∧
    signedQuery payload ts =
      pyReplace (urlencode payload) "%27" "%22" ++ "&timestamp=" ++ toString ts ∧
    send_signed_request secret base path payload ts =
      base ++ path ++ "?" ++ signedQuery payload ts ++ "&signature=" ++
        hashing secret (signedQuery payload ts) := by
  have hlen : (pyReplace (urlencode payload) "%27" "%22").length =
      (urlencode payload).length := pyReplace_length _ _ _ rfl
  have hpos := urlencode_length_pos payload hne
  have hne2 : pyReplace (urlencode payload) "%27" "%22" ≠ "" := by
    intro h
    rw [h] at hlen
    simp at hlen
    omega
  have hbeq : (pyReplace (urlencode payload) "%27" "%22" == "") = false :=
    beq_eq_false_iff_ne.mpr hne2
  refine ⟨fun ts₂ h => by rw [h], ?_, rfl⟩
  unfold signedQuery
  rw [hbeq]
  simp

/-- Concrete instance of the signing contract on a one-parameter
payload. -/
theorem send_signed_request_spec_witness :
    signedQuery [("symbol", "BTCUSDT")] 1700000000000 =
      pyReplace (urlencode [("symbol", "BTCUSDT")]) "%27" "%22" ++
        "&timestamp=" ++ toString 1700000000000 :=
  (send_signed_request_spec "sec" "https://papi.binance.com"
    "/papi/v1/um/order" [("symbol", "BTCUSDT")] 1700000000000
    (by decide)).2.1
